import Mathlib

/-!
Verification of the FastAPI W&B proxy backend (`src/main.py`).

The embedding models Python JSON-like values with `JValue`, Python
exceptions with `Except PyErr`, and translates each route handler into a
Lean function over those types.  The external JSON decoder (`json.loads`)
and the outcome of the outbound HTTP POST (`requests.post`) are
parameters of the route functions, since they are external effects.
-/

/-- Python/JSON values as they appear in decoded response bodies.
Python `None` is `null`; note Python `bool` is a subclass of `int`,
which matters for `isinstance(v, (int, float))` (see `isNumeric`). -/
inductive JValue where
  | null
  | bool (b : Bool)
  | int (n : Int)
  | float (q : ℚ)
  | str (s : String)
  | arr (xs : List JValue)
  | obj (kvs : List (String × JValue))

/-- Python truthiness of a `JValue` (`if not x`, `x or y`). -/
def truthy : JValue → Bool
  | .null => false
  | .bool b => b
  | .int n => n != 0
  | .float q => q != 0
  | .str s => s ≠ ""
  | .arr xs => !xs.isEmpty
  | .obj kvs => !kvs.isEmpty

/-- A Python exception: either a `fastapi.HTTPException` carrying a status
code and a detail message, or any other exception carrying its `str(e)`. -/
inductive PyErr where
  | httpExc (status : Nat) (detail : String)
  | exn (msg : String)
deriving DecidableEq

/-- Python `d.get(k, dflt)`: on a dict, lookup with default; on any other
value, an `AttributeError` (caught by the routes outer `except`). -/
def dictGet (v : JValue) (k : String) (dflt : JValue) : Except PyErr JValue :=
  match v with
  | .obj kvs => .ok ((kvs.lookup k).getD dflt)
  | _ => .error (.exn "AttributeError: object has no attribute get")

/-- Python `for e in xs`: lists yield elements, dicts yield their keys,
strings yield one-character strings, anything else raises `TypeError`. -/
def pyIter : JValue → Except PyErr (List JValue)
  | .arr xs => .ok xs
  | .obj kvs => .ok (kvs.map (fun kv => .str kv.1))
  | .str s => .ok (s.toList.map (fun c => .str (String.mk [c])))
  | _ => .error (.exn "TypeError: object is not iterable")

/-- Python `x == k` where `k` is a `str`: equal strings compare equal,
a `str` never equals a value of another JSON type. -/
def strEqJ (k : String) : JValue → Bool
  | .str t => k == t
  | _ => false

/-- Substring test, for Python `k in s` on strings. -/
def strContainsSub (hay needle : String) : Bool :=
  (List.range (hay.length + 1)).any
    (fun i => needle.isPrefixOf (String.mk (hay.toList.drop i)))

/-- Python `k in data` for a string `k`: key membership on dicts, element
equality on lists, substring on strings, `TypeError` otherwise. -/
def jIn (k : String) (v : JValue) : Except PyErr Bool :=
  match v with
  | .obj kvs => .ok (kvs.any (fun kv => kv.1 == k))
  | .arr xs => .ok (xs.any (strEqJ k))
  | .str s => .ok (strContainsSub s k)
  | _ => .error (.exn "TypeError: argument is not a container")

/-- Python `"; ".join(xs)`: concatenates when every element is a `str`,
raises `TypeError` otherwise. -/
def pyJoin (sep : String) (xs : List JValue) : Except PyErr String :=
  match xs.mapM (fun v => match v with | .str s => some s | _ => none) with
  | some ss => .ok (String.intercalate sep ss)
  | none => .error (.exn "TypeError: sequence item is not str")

/-- `isinstance(v, (int, float))` from the metrics filter at
src/main.py:158.  In Python this is also true of `bool` values, because
`bool` is a subclass of `int`. -/
def isNumeric : JValue → Bool
  | .int _ => true
  | .float _ => true
  | .bool _ => true
  | _ => false

/-- `slim_metrics[k] = v` on a Python dict kept as an insertion-ordered
association list: overwrite in place when the key exists, append otherwise. -/
def dictInsert (d : List (String × JValue)) (k : String) (v : JValue) :
    List (String × JValue) :=
  if d.any (fun kv => kv.1 == k) then
    d.map (fun kv => if kv.1 == k then (k, v) else kv)
  else d ++ [(k, v)]

/-- The `for k, v in summary.items()` loop of src/main.py:157-159, which
copies numeric-valued entries into `slim_metrics` in iteration order. -/
def slimMetricsLoop (acc : List (String × JValue)) :
    List (String × JValue) → List (String × JValue)
  | [] => acc
  | kv :: rest =>
      if isNumeric kv.2 then slimMetricsLoop (dictInsert acc kv.1 kv.2) rest
      else slimMetricsLoop acc rest

/-- Lines 154-161 of src/main.py: keep numeric entries of a decoded summary
dict, then `dict(list(slim_metrics.items())[:12])`; a non-dict summary
yields the empty metrics map. -/
def slimMetrics (summary : JValue) : List (String × JValue) :=
  match summary with
  | .obj kvs => (slimMetricsLoop [] kvs).take 12
  | _ => []

/-- Lines 146-153 (and 226-233) of src/main.py: a string `summaryMetrics`
is decoded with `json.loads`; on decode failure `summary = None`; any
non-string value is used as-is.  `loads` is the external JSON decoder. -/
def decodeSummary (loads : String → Option JValue) (summary : JValue) : JValue :=
  match summary with
  | .str s =>
      match loads s with
      | some v => v
      | none => .null
  | v => v

theorem dictInsert_of_not_mem (d : List (String × JValue)) (k : String) (v : JValue)
    (h : d.any (fun kv => kv.1 == k) = false) : dictInsert d k v = d ++ [(k, v)] := by
  simp [dictInsert, h]

/-- With pairwise-distinct keys (as in any decoded Python dict) the
metrics loop is a plain filter appended to the accumulator. -/
theorem slimMetricsLoop_eq (kvs : List (String × JValue)) :
    ∀ acc : List (String × JValue),
    (∀ p ∈ acc, ∀ q ∈ kvs, p.1 ≠ q.1) → (kvs.map Prod.fst).Nodup →
    slimMetricsLoop acc kvs = acc ++ kvs.filter (fun kv => isNumeric kv.2) := by
  induction kvs with
  | nil => intro acc _ _; simp [slimMetricsLoop]
  | cons kv rest ih =>
      intro acc hacc hnd
      rw [List.map_cons] at hnd
      obtain ⟨hknotin, hnd'⟩ := List.nodup_cons.mp hnd
      by_cases hnum : isNumeric kv.2 = true
      · have hnomem : acc.any (fun p => p.1 == kv.1) = false := by
          by_contra hmem
          rw [Bool.not_eq_false, List.any_eq_true] at hmem
          obtain ⟨p, hp, hpk⟩ := hmem
          exact hacc p hp kv (List.mem_cons_self _ _) (by simpa using hpk)
        have hacc' : ∀ p ∈ acc ++ [(kv.1, kv.2)], ∀ q ∈ rest, p.1 ≠ q.1 := by
          intro p hp q hq
          rcases List.mem_append.mp hp with hp | hp
          · exact hacc p hp q (List.mem_cons_of_mem _ hq)
          · have : p = (kv.1, kv.2) := by simpa using hp
            subst this
            intro hkq
            exact hknotin (hkq ▸ List.mem_map_of_mem Prod.fst hq)
        calc slimMetricsLoop acc (kv :: rest)
            = slimMetricsLoop (acc ++ [(kv.1, kv.2)]) rest := by
              simp [slimMetricsLoop, hnum, dictInsert_of_not_mem _ _ _ hnomem]
          _ = acc ++ [(kv.1, kv.2)] ++ rest.filter (fun p => isNumeric p.2) :=
              ih _ hacc' hnd'
          _ = acc ++ (kv :: rest).filter (fun p => isNumeric p.2) := by
              simp [List.filter_cons, hnum]
      · have hacc' : ∀ p ∈ acc, ∀ q ∈ rest, p.1 ≠ q.1 := fun p hp q hq =>
          hacc p hp q (List.mem_cons_of_mem _ hq)
        calc slimMetricsLoop acc (kv :: rest)
            = slimMetricsLoop acc rest := by
              simp [slimMetricsLoop, hnum]
          _ = acc ++ rest.filter (fun p => isNumeric p.2) := ih _ hacc' hnd'
          _ = acc ++ (kv :: rest).filter (fun p => isNumeric p.2) := by
              simp [List.filter_cons, hnum]

theorem slimMetrics_eq_filter_take (kvs : List (String × JValue))
    (hnd : (kvs.map Prod.fst).Nodup) :
    slimMetrics (.obj kvs) = (kvs.filter (fun kv => isNumeric kv.2)).take 12 := by
  simp [slimMetrics, slimMetricsLoop_eq kvs [] (by simp) hnd]

/-- The result of `requests.post` once it returns: HTTP status, raw body
text, and the body decoded by `resp.json()` (`none` when that call would
raise a parse error). -/
structure UpstreamResponse where
  status_code : Nat
  text : String
  json : Option JValue

/-- `_wandb_headers` (src/main.py:79-83): HTTP 400 when the
`WANDB_API_KEY` environment variable is unset or empty (falsy), else the
authorization headers. -/
def wandb_headers (env : String → Option String) :
    Except PyErr (List (String × String)) :=
  match env "WANDB_API_KEY" with
  | none => .error (.httpExc 400 "Server is missing WANDB_API_KEY env var")
  | some api_key =>
      if api_key = "" then
        .error (.httpExc 400 "Server is missing WANDB_API_KEY env var")
      else
        .ok [("Authorization", "Bearer " ++ api_key),
             ("Content-Type", "application/json")]

/-- The outbound `requests.post` call: a network-level exception becomes a
Python exception (caught by the outer `except` as a 500), otherwise the
response object is available. -/
def getResp (upstream : Except String UpstreamResponse) :
    Except PyErr UpstreamResponse :=
  match upstream with
  | .error msg => .error (.exn msg)
  | .ok resp => .ok resp

/-- `if resp.status_code >= 400: raise HTTPException(resp.status_code,
f"W&B API error: {resp.text[:200]}")` (src/main.py:129-130, 216-217). -/
def checkStatus (resp : UpstreamResponse) : Except PyErr Unit :=
  if resp.status_code ≥ 400 then
    .error (.httpExc resp.status_code ("W&B API error: " ++ resp.text.take 200))
  else .ok ()

/-- `data = resp.json()` — a body that fails to parse raises. -/
def getJson (resp : UpstreamResponse) : Except PyErr JValue :=
  match resp.json with
  | none => .error (.exn "JSONDecodeError: invalid response body")
  | some data => .ok data

/-- The list comprehension `[e.get("message", "Unknown error") for e in ...]`
(src/main.py:134, 220). -/
def getMessages : List JValue → Except PyErr (List JValue)
  | [] => .ok []
  | e :: rest => do
      let m ← dictGet e "message" (.str "Unknown error")
      let ms ← getMessages rest
      pure (m :: ms)

/-- Lines 132-135 (and 219-221) of src/main.py: when `"errors" in data`,
join each entry's `message` (default `"Unknown error"`) with `"; "` and
raise HTTP 400. -/
def checkErrors (data : JValue) : Except PyErr Unit := do
  let present ← jIn "errors" data
  if present then
    let es ← dictGet data "errors" (.arr [])
    let items ← pyIter es
    let msgs ← getMessages items
    let message ← pyJoin "; " msgs
    throw (.httpExc 400 ("W&B GraphQL error: " ++ message))

/-- `(data.get("data", {}) or {}).get("project")` (src/main.py:137, 222). -/
def getProject (data : JValue) : Except PyErr JValue := do
  let dataField ← dictGet data "data" (.obj [])
  dictGet (if truthy dataField then dataField else .obj []) "project" .null

/-- The per-edge body of the listing loop (src/main.py:143-176): extract
the node, decode its `summaryMetrics`, filter/trim numeric metrics, and
build one run summary. -/
def shapeRun (loads : String → Option JValue) (e : JValue) :
    Except PyErr JValue := do
  let n ← dictGet e "node" (.obj [])
  let summaryRaw ← dictGet n "summaryMetrics" .null
  let summary := decodeSummary loads summaryRaw
  let slim := slimMetrics summary
  let idv ← dictGet n "id" .null
  let namev ← dictGet n "name" .null
  let dispv ← dictGet n "displayName" .null
  let statev ← dictGet n "state" .null
  let createdv ← dictGet n "createdAt" .null
  let updatedv ← dictGet n "updatedAt" .null
  let userRaw ← dictGet n "user" .null
  let userName ← dictGet (if truthy userRaw then userRaw else .obj []) "name" .null
  let notesv ← dictGet n "notes" .null
  let tagsv ← dictGet n "tags" .null
  pure (.obj
    [("id", idv), ("name", namev),
     ("displayName", if truthy dispv then dispv else namev),
     ("state", statev), ("createdAt", createdv), ("updatedAt", updatedv),
     ("user", userName), ("notes", notesv),
     ("tags", if truthy tagsv then tagsv else .arr []),
     ("metrics", .obj slim)])

/-- The `for e in edges: runs.append(...)` loop of src/main.py:143-176,
accumulating shaped run summaries in order. -/
def mapRuns (loads : String → Option JValue) :
    List JValue → Except PyErr (List JValue)
  | [] => .ok []
  | e :: rest => do
      let r ← shapeRun loads e
      let rs ← mapRuns loads rest
      pure (r :: rs)

/-- Lines 141-178 of src/main.py, after the project has been extracted:
iterate the edges, shape each run, and build the response dict. -/
def buildRunsList (loads : String → Option JValue) (project_data : JValue) :
    Except PyErr JValue := do
  let runsField ← dictGet project_data "runs" (.obj [])
  let edges ← dictGet runsField "edges" (.arr [])
  let edgeList ← pyIter edges
  let runs ← mapRuns loads edgeList
  let pname ← dictGet project_data "name" .null
  let ent ← dictGet project_data "entity" (.obj [])
  let ename ← dictGet ent "name" .null
  pure (.obj [("project", pname), ("entity", ename),
              ("count", .int runs.length), ("runs", .arr runs)])

/-- The `try` block of `list_wandb_runs` (src/main.py:127-178). -/
def listRunsTry (loads : String → Option JValue)
    (upstream : Except String UpstreamResponse) : Except PyErr JValue := do
  let resp ← getResp upstream
  checkStatus resp
  let data ← getJson resp
  checkErrors data
  let project_data ← getProject data
  if !truthy project_data then
    throw (.httpExc 404 "Project not found or access denied")
  buildRunsList loads project_data

/-- The `try` block of `get_wandb_run` (src/main.py:214-234).  When
`proj.get("run")` is truthy, `proj["run"]` is that same value. -/
def getRunTry (loads : String → Option JValue)
    (upstream : Except String UpstreamResponse) : Except PyErr JValue := do
  let resp ← getResp upstream
  checkStatus resp
  let data ← getJson resp
  checkErrors data
  let proj ← getProject data
  if !truthy proj then
    throw (.httpExc 404 "Run not found")
  let runNode ← dictGet proj "run" .null
  if !truthy runNode then
    throw (.httpExc 404 "Run not found")
  let summaryRaw ← dictGet runNode "summaryMetrics" .null
  pure (.obj [("run", runNode), ("summary", decodeSummary loads summaryRaw)])

/-- The two `except` clauses shared by both routes (src/main.py:179-182,
235-238): `HTTPException` is re-raised, anything else becomes HTTP 500
with the exception text truncated to 200 characters. -/
def handleWandb (r : Except PyErr JValue) : Except PyErr JValue :=
  match r with
  | .error (.exn msg) =>
      .error (.httpExc 500 ("Server error contacting W&B: " ++ msg.take 200))
  | x => x

/-- A route invocation: whether the outbound POST was made, and the
outcome (a value, or an `HTTPException` rendered by the framework). -/
structure RouteRun where
  madeCall : Bool
  result : Except PyErr JValue

/-- `list_wandb_runs` (src/main.py:86-182): headers are computed before
the `try` block, so a missing key aborts before any outbound call. -/
def list_wandb_runs (env : String → Option String)
    (loads : String → Option JValue)
    (upstream : Except String UpstreamResponse) : RouteRun :=
  match wandb_headers env with
  | .error e => ⟨false, .error e⟩
  | .ok _ => ⟨true, handleWandb (listRunsTry loads upstream)⟩

/-- `get_wandb_run` (src/main.py:185-238). -/
def get_wandb_run (env : String → Option String)
    (loads : String → Option JValue)
    (upstream : Except String UpstreamResponse) : RouteRun :=
  match wandb_headers env with
  | .error e => ⟨false, .error e⟩
  | .ok _ => ⟨true, handleWandb (getRunTry loads upstream)⟩

/-- FastAPI validation of `limit: int = Query(25, ge=1, le=200)`
(src/main.py:90): an omitted parameter defaults to 25; an out-of-range
value is rejected by the framework with a `RequestValidationError`,
which FastAPI renders as HTTP 422 Unprocessable Entity. -/
def validate_limit (limit : Option Int) : Except (Nat × String) Int :=
  match limit with
  | none => .ok 25
  | some n =>
      if 1 ≤ n ∧ n ≤ 200 then .ok n
      else .error (422, "Input validation failed for query parameter limit")

/-- The state of the optional `database` module as observed by `/test`
(src/main.py:41-64): the import can fail, raise some other exception,
yield a null handle, or yield a handle with an optional `name` attribute
and a `list_collection_names()` call that returns names or raises. -/
inductive DbState where
  | importFails
  | importRaises (msg : String)
  | dbNone
  | dbPresent (name : Option String) (listColl : Except String (List String))

/-- The fixed-shape response dict of `/test` (src/main.py:32-39).  The
`database_url` and `database_name` fields hold `JValue` because the code
first stores `None` and later overwrites them with strings. -/
structure DiagReport where
  backend : String
  database : String
  database_url : JValue
  database_name : JValue
  connection_status : String
  collections : List String

/-- `"✅ Set" if os.getenv(k) else "❌ Not Set"` (src/main.py:67-68): an
absent or empty variable is falsy. -/
def envSet (v : Option String) : String :=
  match v with
  | none => "❌ Not Set"
  | some s => if s = "" then "❌ Not Set" else "✅ Set"

/-- `test_database` (src/main.py:29-70).  Every `try` of the source has a
matching `except`, so the handler is a total function of the database
state; the final two assignments overwrite `database_url` and
`database_name` with the environment presence flags. -/
def test_database (db : DbState) (env : String → Option String) : DiagReport :=
  let response : DiagReport :=
    { backend := "✅ Running", database := "❌ Not Available",
      database_url := .null, database_name := .null,
      connection_status := "Not Connected", collections := [] }
  let response : DiagReport :=
    match db with
    | .importFails =>
        { response with
          database := "❌ Database module not found (run enable-database first)" }
    | .importRaises msg =>
        { response with database := "❌ Error: " ++ msg.take 50 }
    | .dbNone =>
        { response with database := "⚠️  Available but not initialized" }
    | .dbPresent name listColl =>
        let r : DiagReport :=
          { response with
            database := "✅ Available",
            database_url := .str "✅ Configured",
            database_name :=
              match name with
              | some s => .str s
              | none => .str "✅ Connected",
            connection_status := "Connected" }
        match listColl with
        | .ok collections =>
            { r with collections := collections.take 10,
                     database := "✅ Connected & Working" }
        | .error emsg =>
            { r with database := "⚠️  Connected but Error: " ++ emsg.take 50 }
  { response with
    database_url := .str (envSet (env "DATABASE_URL")),
    database_name := .str (envSet (env "DATABASE_NAME")) }

/-- The `/test` route: the handler returns normally for every database
state, so the framework responds HTTP 200 with the report. -/
def test_route (db : DbState) (env : String → Option String) :
    Nat × DiagReport :=
  (200, test_database db env)

/-- The `message` a GraphQL error entry contributes when the entry is a
mapping and its `message` value, if present, is a string — the shape the
upstream contract promises (`e.get("message", "Unknown error")`,
src/main.py:134).  `none` marks an entry outside that shape. -/
def msgOf : JValue → Option String
  | .obj kvs =>
      match kvs.lookup "message" with
      | some (.str s) => some s
      | some _ => none
      | none => some "Unknown error"
  | _ => none

/-- C1: for every decoded summary-metrics mapping (distinct keys, as any
decoded Python dict has), the `metrics` map kept by list shaping consists
of exactly the entries whose values satisfy the numeric test
`isinstance(v, (int, float))`, in the original field order, truncated to
the first 12 such entries; every kept entry is numeric and the result
never exceeds 12 entries. -/
theorem slim_metrics_numeric_first_twelve (kvs : List (String × JValue))
    (hnd : (kvs.map Prod.fst).Nodup) :
    slimMetrics (.obj kvs) = (kvs.filter (fun kv => isNumeric kv.2)).take 12
    ∧ (∀ kv ∈ slimMetrics (.obj kvs), isNumeric kv.2 = true)
    ∧ (slimMetrics (.obj kvs)).length ≤ 12 := by
  have heq := slimMetrics_eq_filter_take kvs hnd
  refine ⟨heq, ?_, ?_⟩
  · intro kv hkv
    rw [heq] at hkv
    have hkv' : kv ∈ kvs.filter (fun kv => isNumeric kv.2) :=
      List.take_subset _ _ hkv
    exact (List.mem_filter.mp hkv').2
  · rw [heq, List.length_take]
    exact min_le_left _ _

/-- Witness for C1 on a mapping with 13 numeric entries and one
string-valued entry: the string entry is dropped and the 13th numeric
entry is truncated away. -/
theorem slim_metrics_numeric_first_twelve_witness :
    slimMetrics (.obj
      [("a", .int 1), ("b", .int 2), ("c", .int 3), ("d", .int 4),
       ("e", .int 5), ("f", .int 6), ("s", .str "x"), ("g", .int 7),
       ("h", .int 8), ("i", .int 9), ("j", .int 10), ("k", .int 11),
       ("l", .int 12), ("m", .int 13)])
      = [("a", JValue.int 1), ("b", .int 2), ("c", .int 3), ("d", .int 4),
         ("e", .int 5), ("f", .int 6), ("g", .int 7), ("h", .int 8),
         ("i", .int 9), ("j", .int 10), ("k", .int 11), ("l", .int 12)] := by
  have h := slim_metrics_numeric_first_twelve
    [("a", .int 1), ("b", .int 2), ("c", .int 3), ("d", .int 4),
     ("e", .int 5), ("f", .int 6), ("s", .str "x"), ("g", .int 7),
     ("h", .int 8), ("i", .int 9), ("j", .int 10), ("k", .int 11),
     ("l", .int 12), ("m", .int 13)] (by decide)
  rw [h.1]
  rfl

/-- C10: boolean metric values pass the numeric filter, because Python
`bool` is a subclass of `int`; a boolean-valued entry falling within the
first 12 numeric entries therefore appears in the returned `metrics`
map and occupies one of the 12 capped slots. -/
theorem bool_metrics_pass_numeric_filter (kvs : List (String × JValue))
    (k : String) (b : Bool)
    (hnd : (kvs.map Prod.fst).Nodup)
    (hmem : (k, JValue.bool b) ∈ (kvs.filter (fun kv => isNumeric kv.2)).take 12) :
    isNumeric (JValue.bool b) = true
    ∧ (k, JValue.bool b) ∈ slimMetrics (.obj kvs)
    ∧ slimMetrics (.obj kvs) = (kvs.filter (fun kv => isNumeric kv.2)).take 12 := by
  have heq := slimMetrics_eq_filter_take kvs hnd
  exact ⟨rfl, heq ▸ hmem, heq⟩

/-- Witness for C10: a mapping whose first entry is boolean and which has
12 further integer entries; the boolean is kept and, counting toward the
cap, pushes the 13th numeric entry out. -/
theorem bool_metrics_pass_numeric_filter_witness :
    isNumeric (JValue.bool true) = true
    ∧ ("a", JValue.bool true) ∈ slimMetrics (.obj
        [("a", .bool true), ("b", .int 1), ("c", .int 2), ("d", .int 3),
         ("e", .int 4), ("f", .int 5), ("g", .int 6), ("h", .int 7),
         ("i", .int 8), ("j", .int 9), ("k", .int 10), ("l", .int 11),
         ("m", .int 12)])
    ∧ slimMetrics (.obj
        [("a", .bool true), ("b", .int 1), ("c", .int 2), ("d", .int 3),
         ("e", .int 4), ("f", .int 5), ("g", .int 6), ("h", .int 7),
         ("i", .int 8), ("j", .int 9), ("k", .int 10), ("l", .int 11),
         ("m", .int 12)])
      = (([("a", .bool true), ("b", .int 1), ("c", .int 2), ("d", .int 3),
         ("e", .int 4), ("f", .int 5), ("g", .int 6), ("h", .int 7),
         ("i", .int 8), ("j", .int 9), ("k", .int 10), ("l", .int 11),
         ("m", .int 12)] : List (String × JValue)).filter
           (fun kv => isNumeric kv.2)).take 12 :=
  bool_metrics_pass_numeric_filter _ "a" true (by decide) (List.Mem.head _)

/-- C4: a string `summaryMetrics` value is decoded with the JSON decoder
and the shaped result is exactly what decoding the string directly
yields; a string the decoder rejects makes the metrics absent (`None`)
without raising; a value that is already a mapping is used as-is.
`decodeSummary` is the decode rule shared by both shaping operations
(`shapeRun` and `getRunTry`). -/
theorem summary_string_decoding (loads : String → Option JValue)
    (s : String) (kvs : List (String × JValue)) :
    (∀ v, loads s = some v → decodeSummary loads (.str s) = v)
    ∧ (loads s = none → decodeSummary loads (.str s) = .null)
    ∧ decodeSummary loads (.obj kvs) = .obj kvs := by
  refine ⟨?_, ?_, rfl⟩
  · intro v hv
    simp [decodeSummary, hv]
  · intro hv
    simp [decodeSummary, hv]

/-- Witness for C4 with a decoder that accepts exactly the string "ok". -/
theorem summary_string_decoding_witness :
    decodeSummary (fun t => if t = "ok" then some (.int 7) else none)
        (.str "ok") = .int 7
    ∧ decodeSummary (fun t => if t = "ok" then some (.int 7) else none)
        (.str "bad") = .null
    ∧ decodeSummary (fun t => if t = "ok" then some (.int 7) else none)
        (.obj [("x", .int 1)]) = .obj [("x", .int 1)] :=
  ⟨(summary_string_decoding (fun t => if t = "ok" then some (.int 7) else none)
      "ok" []).1 _ (by simp),
   (summary_string_decoding (fun t => if t = "ok" then some (.int 7) else none)
      "bad" []).2.1 (by simp),
   (summary_string_decoding (fun t => if t = "ok" then some (.int 7) else none)
      "bad" [("x", .int 1)]).2.2⟩

/-- C5 counterexample: the framework rejects an out-of-range `limit`
with HTTP 422 (FastAPI's rendering of `RequestValidationError`), not
HTTP 400 as claimed; shown at `limit = 0`. -/
theorem limit_out_of_range_not_400 :
    validate_limit (some 0)
      = .error (422, "Input validation failed for query parameter limit")
    ∧ (422 : Nat) ≠ 400 :=
  ⟨rfl, by decide⟩

/-- C5 (amended): for every integer `limit` outside [1, 200] the runs
listing route responds with the framework validation error, HTTP 422
(not a server error), and `limit` defaults to 25 when omitted. -/
theorem limit_out_of_range_422 (n : Int) (h : n < 1 ∨ 200 < n) :
    validate_limit (some n)
      = .error (422, "Input validation failed for query parameter limit")
    ∧ validate_limit none = .ok 25 := by
  refine ⟨?_, rfl⟩
  rcases h with h | h <;> simp [validate_limit] <;> omega

/-- Witness for amended C5 at `limit = 201`. -/
theorem limit_out_of_range_422_witness :
    validate_limit (some 201)
      = .error (422, "Input validation failed for query parameter limit")
    ∧ validate_limit none = .ok 25 :=
  limit_out_of_range_422 201 (by decide)

/-- C8: for every state of the optional database module — a failing or
raising import, null handle, working handle, or a handle whose
collection listing raises — the `/test` route returns HTTP 200 with a
status report, and the reported collection-name list has at most 10
entries. -/
theorem test_route_always_ok (db : DbState) (env : String → Option String) :
    (test_route db env).1 = 200
    ∧ (test_route db env).2.collections.length ≤ 10 := by
  refine ⟨rfl, ?_⟩
  cases db with
  | importFails => simp [test_route, test_database]
  | importRaises msg => simp [test_route, test_database]
  | dbNone => simp [test_route, test_database]
  | dbPresent name lc =>
      cases lc with
      | ok cols =>
          simp only [test_route, test_database, List.length_take]
          exact min_le_left _ _
      | error e => simp [test_route, test_database]

/-- C3: when the `WANDB_API_KEY` environment variable is absent or empty,
both proxy routes fail with HTTP 400 before the `try` block, so no
outbound POST is made. -/
theorem missing_api_key_no_outbound (env : String → Option String)
    (loads : String → Option JValue) (upstream : Except String UpstreamResponse)
    (h : env "WANDB_API_KEY" = none ∨ env "WANDB_API_KEY" = some "") :
    (list_wandb_runs env loads upstream).madeCall = false
    ∧ (list_wandb_runs env loads upstream).result
        = .error (.httpExc 400 "Server is missing WANDB_API_KEY env var")
    ∧ (get_wandb_run env loads upstream).madeCall = false
    ∧ (get_wandb_run env loads upstream).result
        = .error (.httpExc 400 "Server is missing WANDB_API_KEY env var") := by
  rcases h with h | h <;>
    simp [list_wandb_runs, get_wandb_run, wandb_headers, h]

/-- Witness for C3 with an empty environment. -/
theorem missing_api_key_no_outbound_witness :
    (list_wandb_runs (fun _ => none) (fun _ => none)
        (.error "unreachable")).madeCall = false
    ∧ (list_wandb_runs (fun _ => none) (fun _ => none)
        (.error "unreachable")).result
        = .error (.httpExc 400 "Server is missing WANDB_API_KEY env var")
    ∧ (get_wandb_run (fun _ => none) (fun _ => none)
        (.error "unreachable")).madeCall = false
    ∧ (get_wandb_run (fun _ => none) (fun _ => none)
        (.error "unreachable")).result
        = .error (.httpExc 400 "Server is missing WANDB_API_KEY env var") :=
  missing_api_key_no_outbound _ _ _ (Or.inl rfl)

theorem bindE_ok {α β : Type} (a : α) (f : α → Except PyErr β) :
    (Except.ok a >>= f) = f a := rfl

theorem bindE_err {α β : Type} (e : PyErr) (f : α → Except PyErr β) :
    ((Except.error e : Except PyErr α) >>= f) = Except.error e := rfl

theorem mapE_ok {α β : Type} (g : α → β) (a : α) :
    (g <$> (Except.ok a : Except PyErr α)) = Except.ok (g a) := rfl

theorem mapE_err {α β : Type} (g : α → β) (e : PyErr) :
    (g <$> (Except.error e : Except PyErr α)) = Except.error e := rfl

theorem pureE_eq {α : Type} (a : α) :
    (pure a : Except PyErr α) = Except.ok a := rfl

/-- C7: when the upstream response has status code at least 400, both
proxy routes fail with exactly that status code, and the detail embeds
the upstream body truncated to its first 200 characters. -/
theorem upstream_status_passthrough (env : String → Option String)
    (loads : String → Option JValue) (k : String) (resp : UpstreamResponse)
    (hk : env "WANDB_API_KEY" = some k) (hk2 : k ≠ "")
    (hs : 400 ≤ resp.status_code) :
    (list_wandb_runs env loads (.ok resp)).result
      = .error (.httpExc resp.status_code
          ("W&B API error: " ++ resp.text.take 200))
    ∧ (get_wandb_run env loads (.ok resp)).result
      = .error (.httpExc resp.status_code
          ("W&B API error: " ++ resp.text.take 200)) := by
  constructor <;>
    simp [list_wandb_runs, get_wandb_run, wandb_headers, hk, hk2,
          handleWandb, listRunsTry, getRunTry, getResp, checkStatus, hs,
          bindE_ok, bindE_err, mapE_ok, mapE_err, pureE_eq]

/-- Witness for C7: a 503 upstream response is passed through by both
routes with the truncated body in the detail. -/
theorem upstream_status_passthrough_witness :
    (list_wandb_runs (fun _ => some "key") (fun _ => none)
        (.ok ⟨503, "busy", none⟩)).result
      = .error (.httpExc 503 ("W&B API error: " ++ "busy".take 200))
    ∧ (get_wandb_run (fun _ => some "key") (fun _ => none)
        (.ok ⟨503, "busy", none⟩)).result
      = .error (.httpExc 503 ("W&B API error: " ++ "busy".take 200)) :=
  upstream_status_passthrough (fun _ => some "key") (fun _ => none) "key"
    ⟨503, "busy", none⟩ rfl (by decide) (by decide)

theorem map_ok_inv {α β : Type} (g : α → β) (x : Except PyErr α) (r : β)
    (h : (g <$> x) = .ok r) : ∃ a, x = .ok a ∧ r = g a := by
  cases x with
  | ok a =>
      refine ⟨a, rfl, ?_⟩
      simpa [mapE_ok] using h.symm
  | error e =>
      rw [mapE_err] at h
      exact absurd h (by simp)

/-- C9: in list shaping, the `displayName` of an emitted run summary
falls back to the raw `name` whenever the node's `displayName` value is
falsy — not only when absent or `None`, but for any falsy value such as
the empty string (`n.get("displayName") or n.get("name")`). -/
theorem displayName_falsy_fallback (loads : String → Option JValue)
    (nkvs : List (String × JValue)) (r : JValue)
    (hdisp : truthy ((nkvs.lookup "displayName").getD .null) = false)
    (hok : shapeRun loads (.obj [("node", .obj nkvs)]) = .ok r) :
    ∃ rkvs, r = .obj rkvs
      ∧ rkvs.lookup "displayName" = some ((nkvs.lookup "name").getD .null) := by
  have hnode : dictGet (.obj [("node", .obj nkvs)]) "node" (.obj []) = .ok (.obj nkvs) := by
    simp [dictGet, List.lookup]
  simp only [shapeRun, hnode, bindE_ok] at hok
  simp only [dictGet, bindE_ok] at hok
  obtain ⟨userName, -, hr⟩ := map_ok_inv _ _ _ hok
  refine ⟨_, hr, ?_⟩
  simp [List.lookup, hdisp]

/-- Witness for C9: a node whose `displayName` is the empty string (a
falsy but present value) is emitted with `displayName` equal to `name`. -/
theorem displayName_falsy_fallback_witness :
    ∃ rkvs,
      (JValue.obj
        [("id", .null), ("name", .str "run1"), ("displayName", .str "run1"),
         ("state", .null), ("createdAt", .null), ("updatedAt", .null),
         ("user", .null), ("notes", .null), ("tags", .arr []),
         ("metrics", .obj [])]) = JValue.obj rkvs
      ∧ rkvs.lookup "displayName" = some (JValue.str "run1") :=
  displayName_falsy_fallback (fun _ => none)
    [("name", .str "run1"), ("displayName", .str "")]
    (JValue.obj
      [("id", .null), ("name", .str "run1"), ("displayName", .str "run1"),
       ("state", .null), ("createdAt", .null), ("updatedAt", .null),
       ("user", .null), ("notes", .null), ("tags", .arr []),
       ("metrics", .obj [])])
    (by decide) rfl

/-- C6: for every successful single-run request, the response is the raw
upstream run node under the `run` key, augmented with a `summary` key
holding the decoded metrics object — with no numeric filtering and no
truncation applied to the decoded summary. -/
theorem run_detail_raw_plus_full_summary (env : String → Option String)
    (loads : String → Option JValue) (k : String) (resp : UpstreamResponse)
    (dkvs pkvs rkvs : List (String × JValue))
    (hk : env "WANDB_API_KEY" = some k) (hk2 : k ≠ "")
    (hst : resp.status_code < 400)
    (hjson : resp.json = some (.obj dkvs))
    (hnoerr : dkvs.any (fun kv => kv.1 == "errors") = false)
    (hproj : getProject (.obj dkvs) = .ok (.obj pkvs))
    (hptruthy : truthy (.obj pkvs) = true)
    (hrun : pkvs.lookup "run" = some (.obj rkvs))
    (hrtruthy : truthy (.obj rkvs) = true) :
    (get_wandb_run env loads (.ok resp)).result
      = .ok (.obj [("run", .obj rkvs),
          ("summary",
            decodeSummary loads ((rkvs.lookup "summaryMetrics").getD .null))]) := by
  have h400 : ¬ (400 ≤ resp.status_code) := by omega
  simp [get_wandb_run, wandb_headers, hk, hk2, handleWandb, getRunTry,
        getResp, checkStatus, h400, getJson, hjson, checkErrors, jIn,
        hnoerr, hproj, hptruthy, dictGet, hrun, hrtruthy,
        bindE_ok, bindE_err, mapE_ok, mapE_err, pureE_eq]

/-- Witness for C6: a run node whose summary holds one numeric and one
string entry; the full node and the full (unfiltered) summary come back. -/
theorem run_detail_raw_plus_full_summary_witness :
    (get_wandb_run (fun _ => some "key") (fun _ => none)
        (.ok ⟨200, "",
          some (.obj [("data", .obj [("project", .obj [("run", .obj
            [("name", .str "r1"),
             ("summaryMetrics",
               .obj [("loss", .int 1), ("note", .str "x")])])])])])⟩)).result
      = .ok (.obj
          [("run", .obj
            [("name", .str "r1"),
             ("summaryMetrics", .obj [("loss", .int 1), ("note", .str "x")])]),
           ("summary", .obj [("loss", .int 1), ("note", .str "x")])]) :=
  run_detail_raw_plus_full_summary (fun _ => some "key") (fun _ => none)
    "key" ⟨200, "",
      some (.obj [("data", .obj [("project", .obj [("run", .obj
        [("name", .str "r1"),
         ("summaryMetrics", .obj [("loss", .int 1), ("note", .str "x")])])])])])⟩
    [("data", .obj [("project", .obj [("run", .obj
        [("name", .str "r1"),
         ("summaryMetrics", .obj [("loss", .int 1), ("note", .str "x")])])])])]
    [("run", .obj
        [("name", .str "r1"),
         ("summaryMetrics", .obj [("loss", .int 1), ("note", .str "x")])])]
    [("name", .str "r1"),
     ("summaryMetrics", .obj [("loss", .int 1), ("note", .str "x")])]
    rfl (by decide) (by decide) rfl (by decide) rfl rfl rfl rfl

theorem throwE_eq {α : Type} (e : PyErr) :
    (throw e : Except PyErr α) = Except.error e := rfl

theorem dictGet_error (v : JValue) (k : String) (dflt : JValue) (pe : PyErr)
    (h : dictGet v k dflt = .error pe) : ∃ m, pe = .exn m := by
  cases v <;> simp [dictGet] at h <;> exact ⟨_, h.symm⟩

theorem pyIter_error (v : JValue) (pe : PyErr)
    (h : pyIter v = .error pe) : ∃ m, pe = .exn m := by
  cases v <;> simp [pyIter] at h <;> exact ⟨_, h.symm⟩

theorem map_error_inv {α β : Type} (g : α → β) (x : Except PyErr α) (pe : PyErr)
    (h : (g <$> x) = .error pe) : x = .error pe := by
  cases x with
  | ok a => rw [mapE_ok] at h; exact absurd h (by simp)
  | error e => rw [mapE_err] at h; injection h with h2; rw [h2]

theorem map_exn_inv {α β : Type} (g : α → β) (x : Except PyErr α) (pe : PyErr)
    (hx : ∀ p, x = .error p → ∃ m, p = .exn m)
    (h : (g <$> x) = .error pe) : ∃ m, pe = .exn m :=
  hx pe (map_error_inv g x pe h)

theorem bind_error_inv {α β : Type} (x : Except PyErr α) (f : α → Except PyErr β)
    (pe : PyErr)
    (hf : ∀ a p, f a = .error p → ∃ m, p = .exn m)
    (hx : ∀ p, x = .error p → ∃ m, p = .exn m)
    (h : (x >>= f) = .error pe) : ∃ m, pe = .exn m := by
  cases x with
  | ok a => rw [bindE_ok] at h; exact hf a pe h
  | error e => rw [bindE_err] at h; injection h with h2; exact h2 ▸ hx e rfl

theorem pure_not_error {α : Type} (a : α) (pe : PyErr) :
    (pure a : Except PyErr α) = .error pe → ∃ m, pe = .exn m := by
  intro h
  exact absurd h (by simp [pureE_eq])

/-- Every failure of the per-run shaping step is a plain Python
exception (an `AttributeError` from `.get` on a non-dict), never an
`HTTPException`. -/
theorem shapeRun_error (loads : String → Option JValue) (e : JValue) (pe : PyErr)
    (h : shapeRun loads e = .error pe) : ∃ m, pe = .exn m := by
  cases e <;>
    simp only [shapeRun, dictGet, bindE_ok, bindE_err, Except.error.injEq] at h
  case obj ekvs =>
    revert h
    cases hgd : (ekvs.lookup "node").getD (JValue.obj []) <;>
      intro h <;>
      simp only [dictGet, bindE_ok, bindE_err, Except.error.injEq] at h
    case obj nkvs =>
      exact dictGet_error _ _ _ _ (map_error_inv _ _ _ h)
    all_goals exact ⟨_, h.symm⟩
  all_goals exact ⟨_, h.symm⟩

theorem getProject_error (data : JValue) (pe : PyErr)
    (h : getProject data = .error pe) : ∃ m, pe = .exn m := by
  simp only [getProject] at h
  exact bind_error_inv _ _ _ (fun a p hp => dictGet_error _ _ _ _ hp)
    (fun p hp => dictGet_error _ _ _ _ hp) h

theorem mapRuns_error (loads : String → Option JValue) (es : List JValue)
    (pe : PyErr) (h : mapRuns loads es = .error pe) : ∃ m, pe = .exn m := by
  induction es generalizing pe with
  | nil => simp [mapRuns] at h
  | cons e rest ih =>
      simp only [mapRuns] at h
      exact bind_error_inv _ _ _
        (fun r p hp => map_exn_inv _ _ _ (fun p2 hp2 => ih p2 hp2) hp)
        (fun p hp => shapeRun_error loads e p hp) h

theorem buildRunsList_error (loads : String → Option JValue) (pd : JValue)
    (pe : PyErr) (h : buildRunsList loads pd = .error pe) : ∃ m, pe = .exn m := by
  simp only [buildRunsList] at h
  refine bind_error_inv _ _ _ ?_ (fun p hp => dictGet_error _ _ _ _ hp) h
  intro runsField p hp
  refine bind_error_inv _ _ _ ?_ (fun p2 hp2 => dictGet_error _ _ _ _ hp2) hp
  intro edges p2 hp2
  refine bind_error_inv _ _ _ ?_ (fun p3 hp3 => pyIter_error _ _ hp3) hp2
  intro edgeList p3 hp3
  refine bind_error_inv _ _ _ ?_ (fun p4 hp4 => mapRuns_error _ _ _ hp4) hp3
  intro runs p4 hp4
  refine bind_error_inv _ _ _ ?_ (fun p5 hp5 => dictGet_error _ _ _ _ hp5) hp4
  intro pname p5 hp5
  refine bind_error_inv _ _ _ ?_ (fun p6 hp6 => dictGet_error _ _ _ _ hp6) hp5
  intro ent p6 hp6
  exact map_exn_inv _ _ _ (fun p7 hp7 => dictGet_error _ _ _ _ hp7) hp6

theorem lookup_any (l : List (String × JValue)) (k : String) (v : JValue)
    (h : l.lookup k = some v) : l.any (fun kv => kv.1 == k) = true := by
  induction l with
  | nil => simp [List.lookup] at h
  | cons p rest ih =>
      rcases p with ⟨pk, pv⟩
      by_cases hkp : k = pk
      · subst hkp; simp
      · have hbeq : (k == pk) = false := by simp [hkp]
        have hbeq2 : (pk == k) = false := by simp [Ne.symm hkp]
        simp only [List.lookup, hbeq] at h
        simp [List.any_cons, hbeq2, ih h]

theorem msgOf_dictGet (e : JValue) (m : String) (h : msgOf e = some m) :
    dictGet e "message" (.str "Unknown error") = .ok (.str m) := by
  cases e with
  | obj kvs =>
      revert h
      simp only [msgOf]
      cases hlk : kvs.lookup "message" with
      | none =>
          intro h
          injection h with h2
          simp [dictGet, hlk, h2]
      | some v =>
          cases v <;> intro h <;> simp at h
          case str s => subst h; simp [dictGet, hlk]
  | null => simp [msgOf] at h
  | bool b => simp [msgOf] at h
  | int n => simp [msgOf] at h
  | float q => simp [msgOf] at h
  | str s => simp [msgOf] at h
  | arr xs => simp [msgOf] at h

theorem getMessages_eq (es : List JValue) (msgs : List String)
    (h : es.mapM msgOf = some msgs) :
    getMessages es = .ok (msgs.map JValue.str) := by
  induction es generalizing msgs with
  | nil =>
      simp only [List.mapM_nil, pure, Option.some.injEq] at h
      subst h
      rfl
  | cons e rest ih =>
      rw [List.mapM_cons] at h
      cases hme : msgOf e with
      | none => rw [hme] at h; simp at h
      | some m =>
          rw [hme] at h
          cases hrest : rest.mapM msgOf with
          | none => rw [hrest] at h; simp at h
          | some ms =>
              rw [hrest] at h
              simp only [Option.bind_eq_bind, Option.some_bind, pure,
                Option.some.injEq] at h
              subst h
              simp [getMessages, msgOf_dictGet e m hme, ih ms hrest,
                    bindE_ok, pureE_eq, List.map_cons]

theorem mapM_loop_str (msgs : List String) (acc : List String) :
    List.mapM.loop (fun v => match v with | JValue.str s => some s | _ => none)
      (msgs.map JValue.str) acc = some (acc.reverse ++ msgs) := by
  induction msgs generalizing acc with
  | nil => simp [List.mapM.loop]
  | cons m rest ih =>
      simp [List.map_cons, List.mapM.loop, ih (m :: acc)]

theorem mapM_str_map (msgs : List String) :
    (msgs.map JValue.str).mapM
      (fun v => match v with | JValue.str s => some s | _ => none)
      = some msgs := by
  have h := mapM_loop_str msgs []
  simpa [List.mapM] using h

theorem pyJoin_strs (msgs : List String) :
    pyJoin "; " (msgs.map JValue.str) = .ok (String.intercalate "; " msgs) := by
  simp only [pyJoin, mapM_str_map msgs]

/-- When `data` has a non-empty well-shaped `errors` entry, the shared
errors check raises HTTP 400 with the joined messages. -/
theorem checkErrors_raises (dkvs : List (String × JValue)) (es : List JValue)
    (msgs : List String)
    (hlk : dkvs.lookup "errors" = some (.arr es))
    (hm : es.mapM msgOf = some msgs) :
    checkErrors (.obj dkvs)
      = .error (.httpExc 400
          ("W&B GraphQL error: " ++ String.intercalate "; " msgs)) := by
  have hany := lookup_any dkvs "errors" _ hlk
  simp [checkErrors, jIn, hany, dictGet, hlk, pyIter,
        getMessages_eq es msgs hm, pyJoin_strs, bindE_ok, pureE_eq, throwE_eq]

/-- When `data` has no `errors` key, the errors check passes. -/
theorem checkErrors_pass (dkvs : List (String × JValue))
    (h : dkvs.any (fun kv => kv.1 == "errors") = false) :
    checkErrors (.obj dkvs) = .ok () := by
  simp [checkErrors, jIn, h, bindE_ok, pureE_eq]

/-- When the upstream call succeeded with a parseable body carrying no
`errors` key, any failure of the listing try-block is a plain exception
or the 404 not-found error — never a GraphQL-error HTTPException. -/
theorem listRunsTry_after (loads : String → Option JValue)
    (resp : UpstreamResponse) (dkvs : List (String × JValue))
    (hst : resp.status_code < 400)
    (hjson : resp.json = some (.obj dkvs))
    (hnoerr : dkvs.any (fun kv => kv.1 == "errors") = false)
    (pe : PyErr)
    (h : listRunsTry loads (.ok resp) = .error pe) :
    (∃ m, pe = .exn m)
    ∨ pe = .httpExc 404 "Project not found or access denied" := by
  have h400 : ¬ (400 ≤ resp.status_code) := by omega
  simp only [listRunsTry, getResp, bindE_ok, checkStatus, h400, if_false,
    getJson, hjson, checkErrors_pass dkvs hnoerr] at h
  cases hgp : getProject (.obj dkvs) with
  | error p =>
      rw [hgp, bindE_err] at h
      injection h with h2
      exact Or.inl (h2 ▸ getProject_error _ _ hgp)
  | ok pd =>
      rw [hgp, bindE_ok] at h
      cases htr : truthy pd with
      | false =>
          simp only [htr, Bool.not_false, if_true, throwE_eq, bindE_err] at h
          injection h with h2
          exact Or.inr h2.symm
      | true =>
          simp only [htr, Bool.not_true, Bool.false_eq_true, if_false,
            pureE_eq, bindE_ok] at h
          exact Or.inl (buildRunsList_error _ _ _ h)

/-- Same characterization for the single-run try-block: failures are
plain exceptions or the 404 not-found error. -/
theorem getRunTry_after (loads : String → Option JValue)
    (resp : UpstreamResponse) (dkvs : List (String × JValue))
    (hst : resp.status_code < 400)
    (hjson : resp.json = some (.obj dkvs))
    (hnoerr : dkvs.any (fun kv => kv.1 == "errors") = false)
    (pe : PyErr)
    (h : getRunTry loads (.ok resp) = .error pe) :
    (∃ m, pe = .exn m) ∨ pe = .httpExc 404 "Run not found" := by
  have h400 : ¬ (400 ≤ resp.status_code) := by omega
  simp only [getRunTry, getResp, bindE_ok, checkStatus, h400, if_false,
    getJson, hjson, checkErrors_pass dkvs hnoerr] at h
  cases hgp : getProject (.obj dkvs) with
  | error p =>
      rw [hgp, bindE_err] at h
      injection h with h2
      exact Or.inl (h2 ▸ getProject_error _ _ hgp)
  | ok pd =>
      rw [hgp, bindE_ok] at h
      cases htr : truthy pd with
      | false =>
          simp only [htr, Bool.not_false, if_true, throwE_eq, bindE_err] at h
          injection h with h2
          exact Or.inr h2.symm
      | true =>
          simp only [htr, Bool.not_true, Bool.false_eq_true, if_false,
            pureE_eq, bindE_ok] at h
          cases hrg : dictGet pd "run" JValue.null with
          | error p =>
              rw [hrg, bindE_err] at h
              injection h with h2
              exact Or.inl (h2 ▸ dictGet_error _ _ _ _ hrg)
          | ok runNode =>
              rw [hrg, bindE_ok] at h
              cases htr2 : truthy runNode with
              | false =>
                  simp only [htr2, Bool.not_false, if_true, throwE_eq,
                    bindE_err] at h
                  injection h with h2
                  exact Or.inr h2.symm
              | true =>
                  simp only [htr2, Bool.not_true, Bool.false_eq_true,
                    if_false, pureE_eq, bindE_ok] at h
                  exact Or.inl
                    (dictGet_error _ _ _ _ (map_error_inv _ _ _ h))

/-- C2: when the decoded body carries a non-empty `errors` array of
mappings (each `message`, if present, a string — `msgOf`), both proxy
routes fail with HTTP 400 and the semicolon-joined messages, defaulting
to "Unknown error" per entry; and when `errors` is absent from the
decoded body, neither route raises a GraphQL-error failure. -/
theorem graphql_errors_surface_400 (env : String → Option String)
    (loads : String → Option JValue) (k : String) (resp : UpstreamResponse)
    (dkvs : List (String × JValue))
    (hk : env "WANDB_API_KEY" = some k) (hk2 : k ≠ "")
    (hst : resp.status_code < 400)
    (hjson : resp.json = some (.obj dkvs)) :
    (∀ es msgs, dkvs.lookup "errors" = some (.arr es) → es ≠ [] →
      es.mapM msgOf = some msgs →
      (list_wandb_runs env loads (.ok resp)).result
        = .error (.httpExc 400
            ("W&B GraphQL error: " ++ String.intercalate "; " msgs))
      ∧ (get_wandb_run env loads (.ok resp)).result
        = .error (.httpExc 400
            ("W&B GraphQL error: " ++ String.intercalate "; " msgs)))
    ∧ (dkvs.any (fun kv => kv.1 == "errors") = false →
      (∀ m, (list_wandb_runs env loads (.ok resp)).result
          ≠ .error (.httpExc 400 ("W&B GraphQL error: " ++ m)))
      ∧ (∀ m, (get_wandb_run env loads (.ok resp)).result
          ≠ .error (.httpExc 400 ("W&B GraphQL error: " ++ m)))) := by
  have h400 : ¬ (400 ≤ resp.status_code) := by omega
  have hreslist : (list_wandb_runs env loads (.ok resp)).result
      = handleWandb (listRunsTry loads (.ok resp)) := by
    simp [list_wandb_runs, wandb_headers, hk, hk2]
  have hresrun : (get_wandb_run env loads (.ok resp)).result
      = handleWandb (getRunTry loads (.ok resp)) := by
    simp [get_wandb_run, wandb_headers, hk, hk2]
  constructor
  · intro es msgs hlk hne hm
    rw [hreslist, hresrun]
    constructor <;>
      simp [listRunsTry, getRunTry, getResp, checkStatus, h400, getJson,
        hjson, checkErrors_raises dkvs es msgs hlk hm, handleWandb,
        bindE_ok, bindE_err, mapE_ok, mapE_err, pureE_eq]
  · intro hnoerr
    constructor
    · intro m heq
      rw [hreslist] at heq
      cases htry : listRunsTry loads (.ok resp) with
      | ok v => rw [htry] at heq; simp [handleWandb] at heq
      | error pe =>
          rw [htry] at heq
          rcases listRunsTry_after loads resp dkvs hst hjson hnoerr pe htry
            with ⟨m2, hm2⟩ | h404
          · subst hm2; simp [handleWandb] at heq
          · subst h404; simp [handleWandb] at heq
    · intro m heq
      rw [hresrun] at heq
      cases htry : getRunTry loads (.ok resp) with
      | ok v => rw [htry] at heq; simp [handleWandb] at heq
      | error pe =>
          rw [htry] at heq
          rcases getRunTry_after loads resp dkvs hst hjson hnoerr pe htry
            with ⟨m2, hm2⟩ | h404
          · subst hm2; simp [handleWandb] at heq
          · subst h404; simp [handleWandb] at heq

/-- Witness for C2: an `errors` array with one message and one entry
missing its message yields "boom; Unknown error" on both routes. -/
theorem graphql_errors_surface_400_witness :
    (list_wandb_runs (fun _ => some "key") (fun _ => none)
        (.ok ⟨200, "", some (.obj [("errors",
          .arr [.obj [("message", .str "boom")], .obj []])])⟩)).result
      = .error (.httpExc 400 ("W&B GraphQL error: "
          ++ String.intercalate "; " ["boom", "Unknown error"]))
    ∧ (get_wandb_run (fun _ => some "key") (fun _ => none)
        (.ok ⟨200, "", some (.obj [("errors",
          .arr [.obj [("message", .str "boom")], .obj []])])⟩)).result
      = .error (.httpExc 400 ("W&B GraphQL error: "
          ++ String.intercalate "; " ["boom", "Unknown error"])) :=
  (graphql_errors_surface_400 (fun _ => some "key") (fun _ => none) "key"
      ⟨200, "", some (.obj [("errors",
        .arr [.obj [("message", .str "boom")], .obj []])])⟩
      [("errors", .arr [.obj [("message", .str "boom")], .obj []])]
      rfl (by decide) (by decide) rfl).1
    [.obj [("message", .str "boom")], .obj []] ["boom", "Unknown error"]
    rfl (by simp) rfl
